import Mathlib

/-!
Verification of the candidate-filter repository.

Part A embeds the Adaptive Ranking Engine.  Its Python implementation
(`adaptive_ranker.py`) is not among the source files; the engine is
modelled from the specification and from the repository's own formula
document ("Adaptive Ranking System - Complete Summary"), using exact
rational arithmetic for the floating-point computation.

Part B embeds the résumé-extraction utilities that are present as
source: the browser-side PDF parsing helpers (`pdfParser` module:
`extractEmail`, `extractPhone`, `extractSkills`, `extractEducation`,
`extractExperience`, `extractResumeData`) and the CLI script
`scripts/extractResume.js`.  JavaScript regular-expression matching is
modelled by a small pattern language: a pattern denotes a set of
strings, `reTest` decides whether some substring of the text is in
that set (the semantics of `RegExp.test`), and `firstMatch` returns
the match at the leftmost matching position (taking the longest match
there; no claim depends on which of several matches at a position is
returned, only on whether one exists).
-/

namespace AdaptiveRanker

/-- The six evidence platforms (spec §3 PlatformKind). -/
inductive Platform where
  | github
  | leetcode
  | codeforces
  | linkedin
  | resume
  | assessment
deriving DecidableEq, Fintype

/-- Qualitative confidence level (spec §3). -/
inductive ConfLevel where
  | High
  | Good
  | Moderate
  | Low
  | None
deriving DecidableEq

/-- Platforms for which the candidate has data: the input maps each
present platform to its 0-100 platform score, and absent platforms to
`none` (spec §3: absence is distinct from a zero score). -/
def available (scores : Platform → Option ℚ) : Finset Platform :=
  Finset.univ.filter (fun k => (scores k).isSome)

/-- Sum of the configured weights over a set of platforms. -/
def totalWeight (w : Platform → ℚ) (A : Finset Platform) : ℚ :=
  ∑ k ∈ A, w k

/-- Modelled from the spec: WeightRedistributor (§4.2, formula doc
Step 4); `adaptive_ranker.py` is not among the source files.  Fails
with the `NoUsableData` condition (`none`) when the available set is
empty or its total configured weight is 0; otherwise each available
platform k gets `weight k / total`, and missing platforms get no
entry. -/
def redistribute (w : Platform → ℚ) (A : Finset Platform) :
    Option (Platform → Option ℚ) :=
  if A = ∅ ∨ totalWeight w A = 0 then none
  else some (fun k => if k ∈ A then some (w k / totalWeight w A) else none)

/-- Modelled from the spec: ConfidenceEstimator (§4.3, formula doc
Step 6): `confidence = 0.70 + 0.30 · (n/6)` for n available
platforms. -/
def confidence (n : ℕ) : ℚ :=
  7/10 + 3/10 * ((n : ℚ) / 6)

/-- Modelled from the spec: confidence level by platform count
(§4.3): 5-6 High, 3-4 Good, 2 Moderate, 1 Low, 0 None. -/
def confLevel (n : ℕ) : ConfLevel :=
  if 5 ≤ n then .High
  else if 3 ≤ n then .Good
  else if n = 2 then .Moderate
  else if n = 1 then .Low
  else .None

/-- Modelled from the spec: interval margin by confidence level
(§4.3, formula doc Step 12): High ±3, Good ±5, Moderate ±8, Low ±12.
A gated (None) result never reaches the interval step; its margin is
taken as 0. -/
def marginOf : ConfLevel → ℚ
  | .High => 3
  | .Good => 5
  | .Moderate => 8
  | .Low => 12
  | .None => 0

/-- Modelled from the spec: the minimum-data gate condition (§4.4,
formula doc Step 2): fewer than one available platform, or résumé and
github both missing. -/
def insufficientData (scores : Platform → Option ℚ) : Bool :=
  decide ((available scores).card < 1) ||
    ((scores Platform.resume).isNone && (scores Platform.github).isNone)

/-- Modelled from the spec: availability bonuses (§4.5, formula doc
Step 8): résumé +5; github with a coding platform +3; résumé with
linkedin +2. -/
def bonus (scores : Platform → Option ℚ) : ℚ :=
  (if (scores Platform.resume).isSome then 5 else 0) +
  (if (scores Platform.github).isSome &&
      ((scores Platform.leetcode).isSome || (scores Platform.codeforces).isSome)
   then 3 else 0) +
  (if (scores Platform.resume).isSome && (scores Platform.linkedin).isSome
   then 2 else 0)

/-- Average of the coding-platform scores over the present coding
platforms only; `none` when both are missing (spec §4.5: a missing
platform never satisfies the strong side of a compensatory rule). -/
def codingAvg (scores : Platform → Option ℚ) : Option ℚ :=
  match scores Platform.leetcode, scores Platform.codeforces with
  | some l, some c => some ((l + c) / 2)
  | some l, none => some l
  | none, some c => some c
  | none, none => none

/-- Modelled from the spec: compensatory bonuses (§4.5, formula doc
Step 9).  A missing platform counts as the weak side of a rule but
never as the strong side. -/
def compBonus (scores : Platform → Option ℚ) : ℚ :=
  (match scores Platform.github with
   | some g =>
      if 70 < g then
        (if (match scores Platform.leetcode with
             | none => true
             | some l => decide (l < 50)) then 5 else 0) +
        (if (match scores Platform.codeforces with
             | none => true
             | some c => decide (c < 50)) then 3 else 0)
      else 0
   | none => 0) +
  (match scores Platform.resume with
   | some r =>
      if 70 < r ∧ scores Platform.linkedin = none then 3 else 0
   | none => 0) +
  (match codingAvg scores with
   | some a =>
      if decide (70 < a) && (match scores Platform.github with
                             | none => true
                             | some g => decide (g < 50)) then 4 else 0
   | none => 0)

/-- Modelled from the spec: penalties (§4.5, formula doc Step 10):
fewer than 2 platforms −10; résumé and github both missing −5. -/
def penalty (scores : Platform → Option ℚ) : ℚ :=
  (if (available scores).card < 2 then 10 else 0) +
  (if scores Platform.resume = none ∧ scores Platform.github = none
   then 5 else 0)

/-- Clamp a score into [0, 100] (formula doc Step 11). -/
def clampScore (x : ℚ) : ℚ := min 100 (max 0 x)

/-- The per-candidate scoring result (the fields of spec §3
CandidateScoreResult that the claims mention). -/
structure CandidateResult where
  final_score : ℚ
  base_score : ℚ
  conf : ℚ
  level : ConfLevel
  lo : ℚ
  hi : ℚ
  adjusted_weights : Platform → Option ℚ

/-- Modelled from the spec: the fixed result of the minimum-data gate
(§4.4): final score 0, confidence level None, no further scoring
steps. -/
def gatedResult : CandidateResult :=
  { final_score := 0, base_score := 0, conf := 0, level := .None,
    lo := 0, hi := 0, adjusted_weights := fun _ => none }

/-- Modelled from the spec: steps 5-12 of the scoring pipeline, given
the redistributed weights for the available platforms. -/
def scoredResult (scores : Platform → Option ℚ)
    (adjW : Platform → Option ℚ) : CandidateResult :=
  let A := available scores
  let base := ∑ k ∈ A, (scores k).getD 0 * (adjW k).getD 0
  let conf := confidence A.card
  let lvl := confLevel A.card
  let fs := clampScore (base * conf + bonus scores + compBonus scores - penalty scores)
  { final_score := fs, base_score := base, conf := conf, level := lvl,
    lo := fs - marginOf lvl, hi := fs + marginOf lvl,
    adjusted_weights := adjW }

/-- Modelled from the spec: the whole per-candidate pipeline (§4.4,
§4.2, §4.5, §4.3; formula doc Steps 1-12).  The minimum-data gate and
the `NoUsableData` condition both short-circuit to the gated zero
result (§7). -/
def scoreCandidate (w : Platform → ℚ) (scores : Platform → Option ℚ) :
    CandidateResult :=
  if insufficientData scores then gatedResult
  else
    match redistribute w (available scores) with
    | none => gatedResult
    | some adjW => scoredResult scores adjW

/-- Base score written directly as the weighted sum with redistributed
weights (spec §4.5). -/
def baseScore (w : Platform → ℚ) (scores : Platform → Option ℚ) : ℚ :=
  ∑ k ∈ available scores, (scores k).getD 0 * (w k / totalWeight w (available scores))

/-- The raw combined score before clamping (formula doc Step 11). -/
def rawCombined (w : Platform → ℚ) (scores : Platform → Option ℚ) : ℚ :=
  baseScore w scores * confidence (available scores).card
    + bonus scores + compBonus scores - penalty scores

/-- The default configured weights from the formula document
(CF 0.15, LC 0.20, GH 0.25, LI 0.15, R 0.15, Q 0.10). -/
def defaultWeights : Platform → ℚ
  | .github => 25/100
  | .leetcode => 20/100
  | .codeforces => 15/100
  | .linkedin => 15/100
  | .resume => 15/100
  | .assessment => 10/100

/-- A candidate whose only available platform is Codeforces, with the
maximal platform score. -/
def cfOnly : Platform → Option ℚ
  | .codeforces => some 100
  | _ => none

/-- The reference scenario input (formula doc Example 2): Codeforces
78.3 and GitHub 59.3, nothing else. -/
def exampleScores : Platform → Option ℚ
  | .codeforces => some (783/10)
  | .github => some (593/10)
  | _ => none

/-- The available set of the reference scenario. -/
def exampleAvail : Finset Platform :=
  {Platform.github, Platform.codeforces}

/-- An adversarial input with very large platform scores on github
and résumé. -/
def hugeScores : Platform → Option ℚ
  | .github => some 1000000
  | .resume => some 1000000
  | _ => none

end AdaptiveRanker

namespace PdfParser

/-- Pattern language for the JavaScript regular expressions used by
the extraction helpers: the empty pattern, a single character from a
class, sequencing, alternation (which also expresses the `?`
quantifier), and zero-or-more characters from a class (which with
`one` expresses the `+` quantifier). -/
inductive RE where
  | eps : RE
  | one : (Char → Bool) → RE
  | seq : RE → RE → RE
  | alt : RE → RE → RE
  | many : (Char → Bool) → RE

/-- Remainders of a string after removing a (possibly empty) leading
run of characters of a class. -/
def runRem (p : Char → Bool) : List Char → List (List Char)
  | [] => [[]]
  | c :: t => (c :: t) :: (if p c then runRem p t else [])

/-- All remainders of `s` after matching some prefix of `s` against
the pattern. -/
def reMatchPre : RE → List Char → List (List Char)
  | .eps, s => [s]
  | .one _, [] => []
  | .one p, c :: t => if p c then [t] else []
  | .seq a b, s => (reMatchPre a s).flatMap (reMatchPre b)
  | .alt a b, s => reMatchPre a s ++ reMatchPre b s
  | .many p, s => runRem p s

/-- Length of the longest prefix of `s` matching the pattern, `none`
when no prefix matches. -/
def matchLen (r : RE) (s : List Char) : Option ℕ :=
  ((reMatchPre r s).map (fun rem => s.length - rem.length)).max?

/-- The match at the leftmost position of the text where the pattern
matches (the longest match there), `none` when no substring matches:
the value of `text.match(re)` being `null` or its first element. -/
def firstMatch (r : RE) : List Char → Option (List Char)
  | [] => (matchLen r []).map (fun n => List.take n [])
  | c :: t =>
    match matchLen r (c :: t) with
    | some n => some (List.take n (c :: t))
    | none => firstMatch r t

/-- Whether some substring of the text matches the pattern: the
semantics of `re.test(text)` for a freshly constructed regex. -/
def reTest (r : RE) : List Char → Bool
  | [] => (matchLen r []).isSome
  | c :: t => (matchLen r (c :: t)).isSome || reTest r t

/-- The optional quantifier `x?`. -/
def optRE (r : RE) : RE := .alt r .eps

/-- Sequence a list of patterns. -/
def seqList (l : List RE) : RE := l.foldr .seq .eps

/-- One-or-more characters of a class, `[..]+`. -/
def plusRE (p : Char → Bool) : RE := .seq (.one p) (.many p)

/-- JavaScript `\w`: ASCII letters, digits and underscore. -/
def wordB (c : Char) : Bool := c.isAlphanum || c == '_'

/-- The character class `[\w.-]` of the email regex. -/
def emailChr (c : Char) : Bool := wordB c || c == '.' || c == '-'

/-- JavaScript `\s` (restricted to its ASCII members plus no-break
space; the extraction claims do not depend on the exotic Unicode
space characters). -/
def jsSpace (c : Char) : Bool :=
  c == ' ' || c == '\t' || c == '\n' || c == '\r' ||
  c == '\x0b' || c == '\x0c' || c == '\xa0'

/-- The separator class `[-.\s]` of the phone regex. -/
def sepChr (c : Char) : Bool := c == '-' || c == '.' || jsSpace c

/-- The email pattern `[\w.-]+@[\w.-]+\.\w+`. -/
def emailRE : RE :=
  seqList [plusRE emailChr, .one (· == '@'), plusRE emailChr,
           .one (· == '.'), plusRE wordB]

/-- The phone pattern
`(\+?\d{1,3}[-.\s]?)?\(?\d{3}\)?[-.\s]?\d{3}[-.\s]?\d{4}`. -/
def phoneRE : RE :=
  seqList [
    optRE (seqList [optRE (.one (· == '+')), .one Char.isDigit,
                    optRE (.one Char.isDigit), optRE (.one Char.isDigit),
                    optRE (.one sepChr)]),
    optRE (.one (· == '(')),
    .one Char.isDigit, .one Char.isDigit, .one Char.isDigit,
    optRE (.one (· == ')')),
    optRE (.one sepChr),
    .one Char.isDigit, .one Char.isDigit, .one Char.isDigit,
    optRE (.one sepChr),
    .one Char.isDigit, .one Char.isDigit, .one Char.isDigit, .one Char.isDigit]

/-- The function `extractEmail`: first match of the email regex, `null` when the
text has none. -/
def extractEmail (s : List Char) : Option (List Char) :=
  firstMatch emailRE s

/-- The function `extractPhone`: first match of the phone regex, `null` when the
text has none. -/
def extractPhone (s : List Char) : Option (List Char) :=
  firstMatch phoneRE s

/-- Atom of a compiled skill-keyword pattern: a case-insensitive
literal (the `i` flag), an escaped exact literal, or `.` matching any
character. -/
inductive KAtom where
  | ci : Char → KAtom
  | lit : Char → KAtom
  | dot : KAtom
deriving DecidableEq

/-- Whether one atom matches one character. -/
def katomMatch : KAtom → Char → Bool
  | .ci c, d => d.toLower == c.toLower
  | .lit c, d => d == c
  | .dot, _ => true

/-- Compile a keyword string (as passed to `new RegExp(skill, 'gi')`)
into its atom sequence: `\x` is the exact character x, `.` matches
any character, and every other character matches case-insensitively. -/
def kcompile : List Char → List KAtom
  | [] => []
  | '\\' :: c :: rest => .lit c :: kcompile rest
  | '.' :: rest => .dot :: kcompile rest
  | c :: rest => .ci c :: kcompile rest

/-- Whether the atom sequence matches a prefix of the string. -/
def kMatchesAt : List KAtom → List Char → Bool
  | [], _ => true
  | _ :: _, [] => false
  | a :: p, c :: s => katomMatch a c && kMatchesAt p s

/-- Whether the atom sequence matches at some position of the string:
`new RegExp(skill, 'gi').test(text)`. -/
def kTest (p : List KAtom) : List Char → Bool
  | [] => kMatchesAt p []
  | c :: t => kMatchesAt p (c :: t) || kTest p t

/-- The 25 skill keywords of the browser-side `extractSkills`. -/
def skillKeywordsBrowser : List String :=
  ["JavaScript", "Python", "Java", "C\\+\\+", "React", "Node.js",
   "TypeScript", "SQL", "MongoDB", "AWS", "Docker", "Kubernetes",
   "Git", "HTML", "CSS", "Angular", "Vue", "Django", "Flask",
   "PostgreSQL", "Redis", "GraphQL", "REST", "API", "Microservices"]

/-- Whether a keyword's compiled pattern matches somewhere in the
text. -/
def skillMatches (s : List Char) (kw : String) : Bool :=
  kTest (kcompile kw.toList) s

/-- The keywords found in the text, in keyword-list order (the
`foundSkills` array: each keyword is tested once and pushed when its
regex matches). -/
def skillsFound (keywords : List String) (s : List Char) : List String :=
  keywords.filter (skillMatches s)

/-- JavaScript `[...new Set(xs)]`: drop every element already seen earlier,
keeping first occurrences in order. -/
def setDedup (seen : List String) : List String → List String
  | [] => []
  | x :: xs => if x ∈ seen then setDedup seen xs else x :: setDedup (x :: seen) xs

/-- Browser-side `extractSkills`: the matched keywords with
duplicates removed via `new Set`. -/
def extractSkills (s : List Char) : List String :=
  setDedup [] (skillsFound skillKeywordsBrowser s)

/-- Whether `needle` is a prefix of `hay` (character-exact). -/
def isPrefixList : List Char → List Char → Bool
  | [], _ => true
  | _ :: _, [] => false
  | a :: p, c :: s => a == c && isPrefixList p s

/-- Whether `needle` occurs contiguously in the string: JavaScript
`hay.includes(needle)`. -/
def containsSub (needle : List Char) : List Char → Bool
  | [] => isPrefixList needle []
  | c :: t => isPrefixList needle (c :: t) || containsSub needle t

/-- Split on newline characters: JavaScript `text.split('\n')`. -/
def splitOnNl : List Char → List (List Char)
  | [] => [[]]
  | c :: t =>
    if c == '\n' then [] :: splitOnNl t
    else
      match splitOnNl t with
      | [] => [[c]]
      | l :: ls => (c :: l) :: ls

/-- JavaScript `line.trim()`: strip whitespace from both ends. -/
def trimChars (s : List Char) : List Char :=
  ((s.dropWhile jsSpace).reverse.dropWhile jsSpace).reverse

/-- Keep the lines containing one of the keywords (case-sensitive
substring test), trimmed, dropping lines that trim to nothing. -/
def lineFilter (keywords : List (List Char)) (text : List Char) :
    List (List Char) :=
  (splitOnNl text).filterMap (fun line =>
    if keywords.any (fun k => containsSub k line) then
      (if trimChars line = [] then none else some (trimChars line))
    else none)

/-- The education keywords of the browser-side `extractEducation`. -/
def educationKeywords : List (List Char) :=
  ["Bachelor".toList, "Master".toList, "PhD".toList, "University".toList,
   "College".toList, "Degree".toList, "B.S.".toList, "M.S.".toList,
   "B.A.".toList, "M.A.".toList]

/-- The experience keywords of the browser-side `extractExperience`. -/
def experienceKeywords : List (List Char) :=
  ["Experience".toList, "Work History".toList, "Employment".toList,
   "Engineer".toList, "Developer".toList, "Manager".toList]

/-- Browser-side `extractEducation`. -/
def extractEducation (s : List Char) : List (List Char) :=
  lineFilter educationKeywords s

/-- Browser-side `extractExperience`. -/
def extractExperience (s : List Char) : List (List Char) :=
  lineFilter experienceKeywords s

/-- The record built by `extractResumeData`. -/
structure ResumeData where
  filename : String
  extractedText : List Char
  extractedAt : String
  email : Option (List Char)
  phone : Option (List Char)
  skills : List String
  education : List (List Char)
  experience : List (List Char)

/-- The function `extractResumeData`: the PDF text extraction and the wall clock
are external inputs (`text` is what `parsePDF` returned for the file,
`now` is `new Date().toISOString()` at the moment of the call); every
other field is computed from them. -/
def extractResumeData (filename : String) (text : List Char) (now : String) :
    ResumeData :=
  { filename := filename
    extractedText := text
    extractedAt := now
    email := extractEmail text
    phone := extractPhone text
    skills := extractSkills text
    education := extractEducation text
    experience := extractExperience text }

end PdfParser

namespace ExtractResume

/-- The 19 skill keywords of the CLI `extractSkills` in
`scripts/extractResume.js`. -/
def skillKeywordsCLI : List String :=
  ["JavaScript", "Python", "Java", "C\\+\\+", "React", "Node.js",
   "TypeScript", "SQL", "MongoDB", "AWS", "Docker", "Kubernetes",
   "Git", "HTML", "CSS", "Angular", "Vue", "Django", "Flask"]

/-- CLI `extractSkills`: the matched keywords, without the `Set`
deduplication step of the browser version. -/
def extractSkillsCLI (s : List Char) : List String :=
  PdfParser.skillsFound skillKeywordsCLI s

/-- The six keywords present only in the browser keyword list. -/
def extraSkills : List String :=
  ["PostgreSQL", "Redis", "GraphQL", "REST", "API", "Microservices"]

end ExtractResume

namespace AdaptiveRanker

/-- Modelled from the spec: the raw GitHub attribute record consumed
by the GitHub AttributeScorer (§4.1); the scorer implementation is
not among the source files.  Each field is optional: a malformed or
missing field carries no evidence (§7). -/
structure GithubRaw where
  repos : Option ℕ
  stars : Option ℕ
  followers : Option ℕ
  languages : Option ℕ
  matchedSkills : Option ℕ
  qualityRepos : Option ℕ
  topRepoMatches : Option (List ℕ)

/-- Modelled from the spec: the tiered stars sub-score of the GitHub
scorer (§4.1). -/
def starsTier (stars : ℕ) : ℚ :=
  if 1000 ≤ stars then 25
  else if 500 ≤ stars then 22
  else if 100 ≤ stars then 18
  else if 50 ≤ stars then 14
  else if 10 ≤ stars then 10
  else if 1 ≤ stars then 5
  else 0

/-- Modelled from the spec: the GitHub AttributeScorer (§4.1) over
the optional raw fields, with each missing or malformed field
defaulting to its no-evidence value (0, or the empty list for the
per-repo keyword matches) rather than failing the platform (§7);
`required` is the job's required-skill count.  The scorer clamps its
own output to [0, 100]. -/
def scoreGithubRaw (required : ℕ) (g : GithubRaw) : ℚ :=
  let repos := g.repos.getD 0
  let stars := g.stars.getD 0
  let followers := g.followers.getD 0
  let langs := g.languages.getD 0
  let matched := g.matchedSkills.getD 0
  let quality := g.qualityRepos.getD 0
  let top := g.topRepoMatches.getD []
  clampScore (min 15 ((repos : ℚ) / 50 * 15)
    + starsTier stars
    + min 10 ((followers : ℚ) / 100 * 10)
    + min 10 ((langs : ℚ) / 5 * 10)
    + (if required = 0 then 0 else (matched : ℚ) / (required : ℚ) * 10)
    + (if repos = 0 then 0 else (quality : ℚ) / (repos : ℚ) * 15)
    + min 15 ((top.map (fun m => min 5 (2 * (m : ℚ)))).sum))

/-- Replace every missing field by its explicit no-evidence value. -/
def normalizeGithub (g : GithubRaw) : GithubRaw :=
  { repos := some (g.repos.getD 0)
    stars := some (g.stars.getD 0)
    followers := some (g.followers.getD 0)
    languages := some (g.languages.getD 0)
    matchedSkills := some (g.matchedSkills.getD 0)
    qualityRepos := some (g.qualityRepos.getD 0)
    topRepoMatches := some (g.topRepoMatches.getD []) }

/-- The record with every field missing. -/
def emptyGithub : GithubRaw :=
  { repos := none, stars := none, followers := none, languages := none,
    matchedSkills := none, qualityRepos := none, topRepoMatches := none }

/-- Modelled from the spec: education tiers for the résumé scorer
(§4.1); `unknown` is the no-evidence tier. -/
inductive EduTier where
  | phd
  | master
  | bachelor
  | highSchool
  | unknown
deriving DecidableEq

/-- Modelled from the spec: the résumé education tier lookup (§4.1:
PhD 30, Master 22, Bachelor 15, High School 5, Unknown 0). -/
def eduTierScore : EduTier → ℚ
  | .phd => 30
  | .master => 22
  | .bachelor => 15
  | .highSchool => 5
  | .unknown => 0

/-- Ordering rank of the education tiers, used for the job's
minimum-education comparison (§4.1). -/
def eduTierRank : EduTier → ℕ
  | .phd => 4
  | .master => 3
  | .bachelor => 2
  | .highSchool => 1
  | .unknown => 0

/-- Modelled from the spec: Codeforces rank tiers (§4.1); `unknown`
is the no-evidence tier. -/
inductive CFRank where
  | legendaryGrandmaster
  | internationalGrandmaster
  | grandmaster
  | internationalMaster
  | master
  | candidateMaster
  | expert
  | specialist
  | pupil
  | newbie
  | unknown
deriving DecidableEq

/-- Modelled from the spec: the Codeforces rank-tier lookup table
(§4.1 pins legendary grandmaster → 20, newbie → 2 and unknown → 0;
the intermediate tiers descend evenly, which no claim depends on). -/
def cfRankScore : CFRank → ℚ
  | .legendaryGrandmaster => 20
  | .internationalGrandmaster => 18
  | .grandmaster => 16
  | .internationalMaster => 14
  | .master => 12
  | .candidateMaster => 10
  | .expert => 8
  | .specialist => 6
  | .pupil => 4
  | .newbie => 2
  | .unknown => 0

/-- Modelled from the spec: the LinkedIn degree bonus tiers (§4.1:
phd 10 / master 7 / bachelor 4 / none 0); `missing` is the
no-evidence tier. -/
inductive DegreeTier where
  | phd
  | master
  | bachelor
  | missing
deriving DecidableEq

/-- Modelled from the spec: the LinkedIn degree bonus (§4.1). -/
def degreeBonus : DegreeTier → ℚ
  | .phd => 10
  | .master => 7
  | .bachelor => 4
  | .missing => 0

/-- Modelled from the spec: the job requirements consumed by the
attribute scorers (§3/§6): required-skill count, domain-keyword
count, minimum education tier, minimum experience years. -/
structure JobReq where
  requiredSkills : ℕ
  domainKeywords : ℕ
  minEducation : EduTier
  minExperienceYears : ℕ

/-- Modelled from the spec: the raw LeetCode attribute record (§4.1);
each field optional, a missing or malformed field carries no evidence
(§7). -/
structure LeetCodeRaw where
  solved : Option ℕ
  easy : Option ℕ
  medium : Option ℕ
  hard : Option ℕ
  acceptance : Option ℚ
  ranking : Option ℕ

/-- Modelled from the spec: the tiered global-ranking sub-score of
the LeetCode scorer (§4.1: under 100k → 10, under 500k → 7, under
1M → 5, under 2M → 3, else 0); a missing ranking carries no evidence — null is its own
no-evidence value — and scores 0. -/
def rankingTier : Option ℕ → ℚ
  | none => 0
  | some r =>
    if r < 100000 then 10
    else if r < 500000 then 7
    else if r < 1000000 then 5
    else if r < 2000000 then 3
    else 0

/-- Modelled from the spec: the LeetCode AttributeScorer (§4.1),
clamped to [0, 100]. -/
def scoreLeetCodeRaw (l : LeetCodeRaw) : ℚ :=
  let solved := l.solved.getD 0
  let easy := l.easy.getD 0
  let medium := l.medium.getD 0
  let hard := l.hard.getD 0
  let acceptance := l.acceptance.getD 0
  clampScore (min 50 ((solved : ℚ) / 500 * 50)
    + min 30 ((((easy : ℚ) * 1 + (medium : ℚ) * 2 + (hard : ℚ) * 3) / 6) / 200 * 30)
    + acceptance / 100 * 10
    + rankingTier l.ranking)

/-- Modelled from the spec: the raw Codeforces attribute record
(§4.1); each field optional (§7). -/
structure CodeforcesRaw where
  rating : Option ℕ
  contests : Option ℕ
  rank : Option CFRank
  contribution : Option ℚ

/-- Modelled from the spec: the Codeforces AttributeScorer (§4.1),
clamped to [0, 100]; the contribution sub-score is
clamp(0, 10, contribution/10). -/
def scoreCodeforcesRaw (c : CodeforcesRaw) : ℚ :=
  let rating := c.rating.getD 0
  let contests := c.contests.getD 0
  let rank := c.rank.getD .unknown
  let contribution := c.contribution.getD 0
  clampScore (min 40 ((rating : ℚ) / 3500 * 40)
    + min 30 ((contests : ℚ) / 100 * 30)
    + cfRankScore rank
    + min 10 (max 0 (contribution / 10)))

/-- Modelled from the spec: the raw LinkedIn attribute record (§4.1):
profile-completeness credits (a collection of fixed per-field
credits), experience, education entries and degree, connection count
and skills; each field optional (§7), a missing collection defaults
to the empty collection. -/
structure LinkedinRaw where
  fieldCredits : Option (List ℚ)
  validExperiences : Option ℕ
  expDomainMatches : Option ℕ
  eduEntries : Option ℕ
  degree : Option DegreeTier
  connections : Option ℕ
  skillCount : Option ℕ
  matchedSkills : Option ℕ

/-- Modelled from the spec: the LinkedIn network-size tier (§4.1
fixes the credits 10/8/6/4/2; the spec does not pin the connection
thresholds, on which no claim depends). -/
def networkTier (connections : ℕ) : ℚ :=
  if 500 ≤ connections then 10
  else if 200 ≤ connections then 8
  else if 100 ≤ connections then 6
  else if 50 ≤ connections then 4
  else if 1 ≤ connections then 2
  else 0

/-- Modelled from the spec: the LinkedIn AttributeScorer (§4.1),
clamped to [0, 100]; `required` is the job's required-skill count. -/
def scoreLinkedinRaw (required : ℕ) (li : LinkedinRaw) : ℚ :=
  let credits := li.fieldCredits.getD []
  let valid := li.validExperiences.getD 0
  let dm := li.expDomainMatches.getD 0
  let entries := li.eduEntries.getD 0
  let degree := li.degree.getD .missing
  let conns := li.connections.getD 0
  let skills := li.skillCount.getD 0
  let matched := li.matchedSkills.getD 0
  clampScore (min 25 credits.sum
    + (min 20 ((valid : ℚ) / 3 * 20) + min 5 (2 * (dm : ℚ)))
    + (min 15 ((entries : ℚ) / 2 * 15) + degreeBonus degree)
    + networkTier conns
    + (min 10 ((skills : ℚ) / 10 * 10)
       + (if required = 0 then 0 else (matched : ℚ) / (required : ℚ) * 10)))

/-- Modelled from the spec: the raw résumé attribute record (§4.1);
each field optional (§7), a missing education tier defaults to the
Unknown tier. -/
structure ResumeRaw where
  education : Option EduTier
  years : Option ℕ
  skillCount : Option ℕ
  matchedRequired : Option ℕ
  matchedDomain : Option ℕ
  certifications : Option ℕ
  projects : Option ℕ

/-- Modelled from the spec: the experience-years sub-score of the
résumé scorer (§4.1): tiered when the job's minimum is met
(≥10 → 25, ≥5 → 22, ≥3 → 18, ≥1 → 15, else 12), otherwise capped
min(10, years·3). -/
def resumeYearsScore (minYears years : ℕ) : ℚ :=
  if minYears ≤ years then
    if 10 ≤ years then 25
    else if 5 ≤ years then 22
    else if 3 ≤ years then 18
    else if 1 ≤ years then 15
    else 12
  else min 10 ((years : ℚ) * 3)

/-- Modelled from the spec: the résumé AttributeScorer (§4.1),
clamped to [0, 100]: education tier lookup minus 10 when below the
job's minimum tier, experience years, skill count, required-skill
match, domain-keyword match, and extras. -/
def scoreResumeRaw (job : JobReq) (r : ResumeRaw) : ℚ :=
  let edu := r.education.getD .unknown
  let years := r.years.getD 0
  let skills := r.skillCount.getD 0
  let matched := r.matchedRequired.getD 0
  let domain := r.matchedDomain.getD 0
  let certs := r.certifications.getD 0
  let projects := r.projects.getD 0
  clampScore ((eduTierScore edu
      - (if eduTierRank edu < eduTierRank job.minEducation then 10 else 0))
    + resumeYearsScore job.minExperienceYears years
    + min 10 ((skills : ℚ) / 10 * 10)
    + (if job.requiredSkills = 0 then 0
       else (matched : ℚ) / (job.requiredSkills : ℚ) * 15)
    + (if job.domainKeywords = 0 then 0
       else (domain : ℚ) / (job.domainKeywords : ℚ) * 10)
    + (min 5 ((certs : ℚ) * (3/2)) + min 5 ((projects : ℚ) * 1)))

/-- Modelled from the spec: the raw assessment attribute record
(§4.1); each field optional (§7). -/
structure AssessmentRaw where
  pointsEarned : Option ℚ
  totalPoints : Option ℚ

/-- Modelled from the spec: the assessment AttributeScorer (§4.1:
points_earned / total_points · 100), clamped to [0, 100]. -/
def scoreAssessmentRaw (a : AssessmentRaw) : ℚ :=
  let earned := a.pointsEarned.getD 0
  let total := a.totalPoints.getD 0
  clampScore (if total = 0 then 0 else earned / total * 100)

/-- Replace every missing LeetCode field by its explicit no-evidence
value; the ranking field's no-evidence value is null itself. -/
def normalizeLeetCode (l : LeetCodeRaw) : LeetCodeRaw :=
  { solved := some (l.solved.getD 0), easy := some (l.easy.getD 0),
    medium := some (l.medium.getD 0), hard := some (l.hard.getD 0),
    acceptance := some (l.acceptance.getD 0), ranking := l.ranking }

/-- Replace every missing Codeforces field by its explicit
no-evidence value; the missing rank becomes the Unknown tier. -/
def normalizeCodeforces (c : CodeforcesRaw) : CodeforcesRaw :=
  { rating := some (c.rating.getD 0), contests := some (c.contests.getD 0),
    rank := some (c.rank.getD .unknown),
    contribution := some (c.contribution.getD 0) }

/-- Replace every missing LinkedIn field by its explicit no-evidence
value: 0, the empty collection, or the no-degree tier. -/
def normalizeLinkedin (li : LinkedinRaw) : LinkedinRaw :=
  { fieldCredits := some (li.fieldCredits.getD [])
    validExperiences := some (li.validExperiences.getD 0)
    expDomainMatches := some (li.expDomainMatches.getD 0)
    eduEntries := some (li.eduEntries.getD 0)
    degree := some (li.degree.getD .missing)
    connections := some (li.connections.getD 0)
    skillCount := some (li.skillCount.getD 0)
    matchedSkills := some (li.matchedSkills.getD 0) }

/-- Replace every missing résumé field by its explicit no-evidence
value; the missing education becomes the Unknown tier. -/
def normalizeResume (r : ResumeRaw) : ResumeRaw :=
  { education := some (r.education.getD .unknown)
    years := some (r.years.getD 0)
    skillCount := some (r.skillCount.getD 0)
    matchedRequired := some (r.matchedRequired.getD 0)
    matchedDomain := some (r.matchedDomain.getD 0)
    certifications := some (r.certifications.getD 0)
    projects := some (r.projects.getD 0) }

/-- Replace every missing assessment field by its explicit
no-evidence value. -/
def normalizeAssessment (a : AssessmentRaw) : AssessmentRaw :=
  { pointsEarned := some (a.pointsEarned.getD 0),
    totalPoints := some (a.totalPoints.getD 0) }

/-- Modelled from the spec: the tagged union of the six platform
attribute records (§3 PlatformAttributes, design note §9). -/
inductive PlatformRecord where
  | github : GithubRaw → PlatformRecord
  | leetcode : LeetCodeRaw → PlatformRecord
  | codeforces : CodeforcesRaw → PlatformRecord
  | linkedin : LinkedinRaw → PlatformRecord
  | resume : ResumeRaw → PlatformRecord
  | assessment : AssessmentRaw → PlatformRecord

/-- Replace every missing field of a present platform record by its
explicit no-evidence value (§7). -/
def normalizeRecord : PlatformRecord → PlatformRecord
  | .github g => .github (normalizeGithub g)
  | .leetcode l => .leetcode (normalizeLeetCode l)
  | .codeforces c => .codeforces (normalizeCodeforces c)
  | .linkedin li => .linkedin (normalizeLinkedin li)
  | .resume r => .resume (normalizeResume r)
  | .assessment a => .assessment (normalizeAssessment a)

/-- Modelled from the spec: the AttributeScorer dispatch (§4.1) — a
pure function from a present platform record, with the job
requirements, to that platform's 0-100 score. -/
def scorePlatform (job : JobReq) : PlatformRecord → ℚ
  | .github g => scoreGithubRaw job.requiredSkills g
  | .leetcode l => scoreLeetCodeRaw l
  | .codeforces c => scoreCodeforcesRaw c
  | .linkedin li => scoreLinkedinRaw job.requiredSkills li
  | .resume r => scoreResumeRaw job r
  | .assessment a => scoreAssessmentRaw a

/-- A résumé record with every field missing. -/
def emptyResume : ResumeRaw :=
  { education := none, years := none, skillCount := none,
    matchedRequired := none, matchedDomain := none,
    certifications := none, projects := none }

/-- A concrete job-requirements value for witnesses. -/
def job0 : JobReq :=
  { requiredSkills := 2, domainKeywords := 3,
    minEducation := EduTier.bachelor, minExperienceYears := 2 }

theorem exampleTotal : totalWeight defaultWeights exampleAvail = 2/5 := by
  rw [totalWeight, exampleAvail]
  rw [Finset.sum_insert (by decide), Finset.sum_singleton]
  norm_num [defaultWeights]

theorem redistribute_some (w : Platform → ℚ) (A : Finset Platform)
    (h : ¬(A = ∅ ∨ totalWeight w A = 0)) :
    redistribute w A =
      some (fun k => if k ∈ A then some (w k / totalWeight w A) else none) := by
  simp only [redistribute, if_neg h]

theorem available_ne_empty (scores : Platform → Option ℚ)
    (h : insufficientData scores = false) : available scores ≠ ∅ := by
  intro hA
  simp [insufficientData, hA] at h

theorem scoreCandidate_eq (w : Platform → ℚ) (scores : Platform → Option ℚ)
    (h : insufficientData scores = false)
    (ht : totalWeight w (available scores) ≠ 0) :
    scoreCandidate w scores =
      scoredResult scores (fun k =>
        if k ∈ available scores
        then some (w k / totalWeight w (available scores)) else none) := by
  have hcond : ¬(available scores = ∅ ∨ totalWeight w (available scores) = 0) := by
    push_neg
    exact ⟨available_ne_empty scores h, ht⟩
  rw [scoreCandidate, if_neg (by simp [h]), redistribute_some w _ hcond]

theorem scoredResult_base (w : Platform → ℚ) (scores : Platform → Option ℚ) :
    (scoredResult scores (fun k =>
        if k ∈ available scores
        then some (w k / totalWeight w (available scores)) else none)).base_score
      = baseScore w scores := by
  simp only [scoredResult, baseScore]
  refine Finset.sum_congr rfl (fun k hk => ?_)
  rw [if_pos hk, Option.getD_some]

/-- C1: for every candidate, if the set of available platforms is
empty, or both the résumé platform and the github platform are
missing, the scoring pipeline returns final_score = 0 with confidence
level None and performs no further scoring steps. -/
theorem C1_minimum_data_gate (w : Platform → ℚ) (scores : Platform → Option ℚ)
    (h : available scores = ∅ ∨
         (scores Platform.resume = none ∧ scores Platform.github = none)) :
    scoreCandidate w scores = gatedResult ∧
    (scoreCandidate w scores).final_score = 0 ∧
    (scoreCandidate w scores).level = ConfLevel.None := by
  have hins : insufficientData scores = true := by
    rcases h with h | ⟨h1, h2⟩
    · simp [insufficientData, h]
    · simp [insufficientData, h1, h2]
  rw [scoreCandidate, if_pos hins]
  exact ⟨rfl, rfl, rfl⟩

/-- C1 witness: a candidate whose only available platform is
Codeforces, with Codeforces platform score 100, gets final_score 0
and confidence level None. -/
theorem C1_minimum_data_gate_witness :
    scoreCandidate defaultWeights cfOnly = gatedResult ∧
    (scoreCandidate defaultWeights cfOnly).final_score = 0 ∧
    (scoreCandidate defaultWeights cfOnly).level = ConfLevel.None :=
  C1_minimum_data_gate defaultWeights cfOnly (Or.inr ⟨rfl, rfl⟩)

/-- C2: for every non-empty available set A with non-zero total
configured weight, the redistributor returns weight k / total for
each k in A and no entry outside A, the adjusted weights sum to 1
(hence within tolerance 1e-9 of 1.0), and it fails with the
NoUsableData condition exactly when A is empty or the total is 0. -/
theorem C2_weight_redistribution (w : Platform → ℚ) (A : Finset Platform) :
    (A ≠ ∅ → totalWeight w A ≠ 0 →
      redistribute w A =
        some (fun k => if k ∈ A then some (w k / totalWeight w A) else none) ∧
      ∑ k ∈ A, w k / totalWeight w A = 1) ∧
    (redistribute w A = none ↔ A = ∅ ∨ totalWeight w A = 0) := by
  constructor
  · intro h1 h2
    refine ⟨redistribute_some w A (by tauto), ?_⟩
    rw [← Finset.sum_div]
    have hs : (∑ k ∈ A, w k) = totalWeight w A := rfl
    rw [hs]
    exact div_self h2
  · constructor
    · intro h
      by_contra hc
      rw [redistribute_some w A hc] at h
      exact Option.noConfusion h
    · intro h
      simp only [redistribute, if_pos h]

/-- C2 witness: with the configured weights and the available set
{github, codeforces}, redistribution succeeds, the adjusted weights
sum to exactly 1, and the failure condition does not hold. -/
theorem C2_weight_redistribution_witness :
    (redistribute defaultWeights exampleAvail =
       some (fun k => if k ∈ exampleAvail
             then some (defaultWeights k / totalWeight defaultWeights exampleAvail)
             else none) ∧
     ∑ k ∈ exampleAvail, defaultWeights k / totalWeight defaultWeights exampleAvail = 1) ∧
    (redistribute defaultWeights exampleAvail = none ↔
       exampleAvail = ∅ ∨ totalWeight defaultWeights exampleAvail = 0) :=
  ⟨(C2_weight_redistribution defaultWeights exampleAvail).1 (by decide)
      (by rw [exampleTotal]; norm_num),
   (C2_weight_redistribution defaultWeights exampleAvail).2⟩

/-- C3: for 1 ≤ n ≤ 6 available platforms the confidence multiplier
equals 0.70 + 0.30·(n/6), lies in [0.70, 1.00], and takes exactly the
values 0.75, 0.80, 0.85, 0.90, 0.95, 1.00 for n = 1..6. -/
theorem C3_confidence_formula (n : ℕ) (h1 : 1 ≤ n) (h2 : n ≤ 6) :
    confidence n = 7/10 + 3/10 * ((n : ℚ) / 6) ∧
    7/10 ≤ confidence n ∧ confidence n ≤ 1 ∧
    confidence 1 = 75/100 ∧ confidence 2 = 80/100 ∧ confidence 3 = 85/100 ∧
    confidence 4 = 90/100 ∧ confidence 5 = 95/100 ∧ confidence 6 = 1 := by
  refine ⟨rfl, ?_, ?_, by norm_num [confidence], by norm_num [confidence],
    by norm_num [confidence], by norm_num [confidence], by norm_num [confidence],
    by norm_num [confidence]⟩
  · interval_cases n <;> norm_num [confidence]
  · interval_cases n <;> norm_num [confidence]

/-- C3 witness: instantiated at n = 2 available platforms. -/
theorem C3_confidence_formula_witness :
    confidence 2 = 7/10 + 3/10 * ((2 : ℚ) / 6) ∧
    7/10 ≤ confidence 2 ∧ confidence 2 ≤ 1 ∧
    confidence 1 = 75/100 ∧ confidence 2 = 80/100 ∧ confidence 3 = 85/100 ∧
    confidence 4 = 90/100 ∧ confidence 5 = 95/100 ∧ confidence 6 = 1 :=
  C3_confidence_formula 2 (by norm_num) (by norm_num)

end AdaptiveRanker

namespace AdaptiveRanker

theorem clampScore_nonneg (x : ℚ) : 0 ≤ clampScore x :=
  le_min (by norm_num) (le_max_left 0 x)

theorem clampScore_le_100 (x : ℚ) : clampScore x ≤ 100 :=
  min_le_left _ _

theorem scoredResult_bounds (scores : Platform → Option ℚ)
    (adjW : Platform → Option ℚ) :
    0 ≤ (scoredResult scores adjW).final_score ∧
    (scoredResult scores adjW).final_score ≤ 100 := by
  simp only [scoredResult]
  exact ⟨clampScore_nonneg _, clampScore_le_100 _⟩

theorem scoredResult_final (w : Platform → ℚ) (scores : Platform → Option ℚ) :
    (scoredResult scores (fun k =>
        if k ∈ available scores
        then some (w k / totalWeight w (available scores)) else none)).final_score
      = clampScore (rawCombined w scores) := by
  have hb : (∑ k ∈ available scores, (scores k).getD 0 *
      ((fun k => if k ∈ available scores
        then some (w k / totalWeight w (available scores)) else none) k).getD 0)
      = baseScore w scores := by
    refine Finset.sum_congr rfl (fun k hk => ?_)
    simp only [if_pos hk, Option.getD_some, baseScore]
  simp only [scoredResult, rawCombined]
  rw [hb]

theorem gatedResult_final : gatedResult.final_score = 0 := rfl

/-- C4: for every input, including ones with arbitrarily large
platform scores, the assembled final score equals
clamp(0, 100, confidence-adjusted score + bonuses + compensatory −
penalties) whenever the pipeline scores the candidate, and the final
score always lies in [0, 100]. -/
theorem C4_final_score_bounds (w : Platform → ℚ) (scores : Platform → Option ℚ) :
    (insufficientData scores = false →
      totalWeight w (available scores) ≠ 0 →
      (scoreCandidate w scores).final_score = clampScore (rawCombined w scores)) ∧
    0 ≤ (scoreCandidate w scores).final_score ∧
    (scoreCandidate w scores).final_score ≤ 100 := by
  constructor
  · intro h ht
    rw [scoreCandidate_eq w scores h ht, scoredResult_final w scores]
  · by_cases h : insufficientData scores
    · simp only [scoreCandidate, if_pos h]
      norm_num [gatedResult]
    · simp only [scoreCandidate, if_neg h]
      cases hred : redistribute w (available scores) with
      | none => norm_num [gatedResult]
      | some adjW => exact scoredResult_bounds scores adjW

theorem hugeAvail : available hugeScores = {Platform.github, Platform.resume} := by
  decide

theorem hugeTotal :
    totalWeight defaultWeights {Platform.github, Platform.resume} = 2/5 := by
  rw [totalWeight]
  rw [Finset.sum_insert (by decide), Finset.sum_singleton]
  norm_num [defaultWeights]

/-- C4 witness: the candidate with platform score 1000000 on github
and résumé still receives a final score equal to the clamped
combination, within [0, 100]. -/
theorem C4_final_score_bounds_witness :
    (scoreCandidate defaultWeights hugeScores).final_score
      = clampScore (rawCombined defaultWeights hugeScores) ∧
    (0 ≤ (scoreCandidate defaultWeights hugeScores).final_score ∧
     (scoreCandidate defaultWeights hugeScores).final_score ≤ 100) :=
  ⟨(C4_final_score_bounds defaultWeights hugeScores).1 (by decide)
     (by rw [hugeAvail, hugeTotal]; norm_num),
   (C4_final_score_bounds defaultWeights hugeScores).2⟩

/-- C5: for every scored candidate the confidence interval is
[final_score − m, final_score + m], where the half-width m is
determined exactly by the available-platform count (5-6 → 3, 3-4 → 5,
2 → 8, 1 → 12); hence the interval always contains the final score. -/
theorem C5_confidence_interval (w : Platform → ℚ) (scores : Platform → Option ℚ)
    (h : insufficientData scores = false)
    (ht : totalWeight w (available scores) ≠ 0) :
    (scoreCandidate w scores).lo
      = (scoreCandidate w scores).final_score
          - marginOf (confLevel (available scores).card) ∧
    (scoreCandidate w scores).hi
      = (scoreCandidate w scores).final_score
          + marginOf (confLevel (available scores).card) ∧
    (scoreCandidate w scores).lo ≤ (scoreCandidate w scores).final_score ∧
    (scoreCandidate w scores).final_score ≤ (scoreCandidate w scores).hi ∧
    (5 ≤ (available scores).card →
       marginOf (confLevel (available scores).card) = 3) ∧
    (3 ≤ (available scores).card → (available scores).card ≤ 4 →
       marginOf (confLevel (available scores).card) = 5) ∧
    ((available scores).card = 2 →
       marginOf (confLevel (available scores).card) = 8) ∧
    ((available scores).card = 1 →
       marginOf (confLevel (available scores).card) = 12) := by
  have hm : 0 ≤ marginOf (confLevel (available scores).card) := by
    cases confLevel (available scores).card <;> norm_num [marginOf]
  rw [scoreCandidate_eq w scores h ht]
  simp only [scoredResult]
  refine ⟨by trivial, by trivial, by linarith, by linarith, ?_, ?_, ?_, ?_⟩
  · intro h5
    rw [confLevel, if_pos h5]
    rfl
  · intro h3 h4
    rw [confLevel, if_neg (by omega), if_pos h3]
    rfl
  · intro h2
    rw [confLevel, if_neg (by omega), if_neg (by omega), if_pos h2]
    rfl
  · intro h1
    rw [confLevel, if_neg (by omega), if_neg (by omega), if_neg (by omega),
      if_pos h1]
    rfl

theorem exampleAvailEq : available exampleScores = exampleAvail := by decide

/-- C5 witness: instantiated at the two-platform reference candidate
(Codeforces and GitHub present). -/
theorem C5_confidence_interval_witness :
    (scoreCandidate defaultWeights exampleScores).lo
      = (scoreCandidate defaultWeights exampleScores).final_score
          - marginOf (confLevel (available exampleScores).card) ∧
    (scoreCandidate defaultWeights exampleScores).hi
      = (scoreCandidate defaultWeights exampleScores).final_score
          + marginOf (confLevel (available exampleScores).card) ∧
    (scoreCandidate defaultWeights exampleScores).lo
      ≤ (scoreCandidate defaultWeights exampleScores).final_score ∧
    (scoreCandidate defaultWeights exampleScores).final_score
      ≤ (scoreCandidate defaultWeights exampleScores).hi ∧
    (5 ≤ (available exampleScores).card →
       marginOf (confLevel (available exampleScores).card) = 3) ∧
    (3 ≤ (available exampleScores).card → (available exampleScores).card ≤ 4 →
       marginOf (confLevel (available exampleScores).card) = 5) ∧
    ((available exampleScores).card = 2 →
       marginOf (confLevel (available exampleScores).card) = 8) ∧
    ((available exampleScores).card = 1 →
       marginOf (confLevel (available exampleScores).card) = 12) :=
  C5_confidence_interval defaultWeights exampleScores (by decide)
    (by rw [exampleAvailEq, exampleTotal]; norm_num)

end AdaptiveRanker

namespace AdaptiveRanker

theorem scoredResult_lo (scores : Platform → Option ℚ) (adjW : Platform → Option ℚ) :
    (scoredResult scores adjW).lo
      = (scoredResult scores adjW).final_score
          - marginOf (confLevel (available scores).card) := rfl

theorem scoredResult_hi (scores : Platform → Option ℚ) (adjW : Platform → Option ℚ) :
    (scoredResult scores adjW).hi
      = (scoredResult scores adjW).final_score
          + marginOf (confLevel (available scores).card) := rfl

theorem scoredResult_level (scores : Platform → Option ℚ) (adjW : Platform → Option ℚ) :
    (scoredResult scores adjW).level = confLevel (available scores).card := rfl

theorem scoredResult_conf (scores : Platform → Option ℚ) (adjW : Platform → Option ℚ) :
    (scoredResult scores adjW).conf = confidence (available scores).card := rfl

/-- C6: the reference scenario — Codeforces 78.3 and GitHub 59.3 as
the only platforms, configured weights github 0.25 and codeforces
0.15 — yields adjusted weights codeforces 0.375 and github 0.625,
base score 66.425 (≈ 66.42), confidence 0.80, confidence-adjusted
score 53.14, a +3 bonus (github plus a coding platform) and no other
adjustment, final score 56.14, confidence level Moderate, and
confidence interval [48.14, 64.14] (≈ [48.1, 64.1]). -/
theorem C6_reference_scenario :
    (scoreCandidate defaultWeights exampleScores).adjusted_weights Platform.codeforces
      = some (375/1000) ∧
    (scoreCandidate defaultWeights exampleScores).adjusted_weights Platform.github
      = some (625/1000) ∧
    (scoreCandidate defaultWeights exampleScores).base_score = 66425/1000 ∧
    (scoreCandidate defaultWeights exampleScores).conf = 80/100 ∧
    (scoreCandidate defaultWeights exampleScores).base_score
      * (scoreCandidate defaultWeights exampleScores).conf = 5314/100 ∧
    bonus exampleScores = 3 ∧
    compBonus exampleScores = 0 ∧
    penalty exampleScores = 0 ∧
    (scoreCandidate defaultWeights exampleScores).final_score = 5614/100 ∧
    (scoreCandidate defaultWeights exampleScores).level = ConfLevel.Moderate ∧
    (scoreCandidate defaultWeights exampleScores).lo = 4814/100 ∧
    (scoreCandidate defaultWeights exampleScores).hi = 6414/100 := by
  have hins : insufficientData exampleScores = false := by decide
  have ht : totalWeight defaultWeights (available exampleScores) ≠ 0 := by
    rw [exampleAvailEq, exampleTotal]
    norm_num
  have hcard : (available exampleScores).card = 2 := by
    rw [exampleAvailEq]
    rfl
  have hbase : baseScore defaultWeights exampleScores = 66425/1000 := by
    rw [baseScore, exampleAvailEq, exampleTotal]
    simp only [exampleAvail]
    rw [Finset.sum_insert (by decide), Finset.sum_singleton]
    simp [exampleScores, defaultWeights]
    norm_num
  have hbonus : bonus exampleScores = 3 := by
    simp [bonus, exampleScores]
  have hcomp : compBonus exampleScores = 0 := by
    norm_num [compBonus, codingAvg, exampleScores, Bool.and_eq_true,
      decide_eq_true_eq]
  have hpen : penalty exampleScores = 0 := by
    rw [penalty, hcard]
    simp [exampleScores]
  have hraw : rawCombined defaultWeights exampleScores = 5614/100 := by
    rw [rawCombined, hbase, hcard, hbonus, hcomp, hpen]
    norm_num [confidence]
  have hsc := scoreCandidate_eq defaultWeights exampleScores hins ht
  have hB : (scoreCandidate defaultWeights exampleScores).base_score = 66425/1000 := by
    rw [hsc, scoredResult_base defaultWeights exampleScores, hbase]
  have hC : (scoreCandidate defaultWeights exampleScores).conf = 80/100 := by
    rw [hsc, scoredResult_conf, hcard]
    norm_num [confidence]
  have hF : (scoreCandidate defaultWeights exampleScores).final_score = 5614/100 := by
    rw [hsc, scoredResult_final defaultWeights exampleScores, hraw, clampScore]
    rw [max_eq_right (by norm_num), min_eq_right (by norm_num)]
  have hL : (scoreCandidate defaultWeights exampleScores).level = ConfLevel.Moderate := by
    rw [hsc, scoredResult_level, hcard]
    rfl
  have hlo : (scoreCandidate defaultWeights exampleScores).lo = 4814/100 := by
    rw [hsc, scoredResult_lo, ← hsc, hF, hcard]
    norm_num [confLevel, marginOf]
  have hhi : (scoreCandidate defaultWeights exampleScores).hi = 6414/100 := by
    rw [hsc, scoredResult_hi, ← hsc, hF, hcard]
    norm_num [confLevel, marginOf]
  have hWcf : (scoreCandidate defaultWeights exampleScores).adjusted_weights
      Platform.codeforces = some (375/1000) := by
    rw [hsc]
    simp only [scoredResult]
    rw [if_pos (show Platform.codeforces ∈ available exampleScores by
      rw [exampleAvailEq]; decide)]
    rw [exampleAvailEq, exampleTotal]
    norm_num [defaultWeights, Option.some.injEq]
  have hWgh : (scoreCandidate defaultWeights exampleScores).adjusted_weights
      Platform.github = some (625/1000) := by
    rw [hsc]
    simp only [scoredResult]
    rw [if_pos (show Platform.github ∈ available exampleScores by
      rw [exampleAvailEq]; decide)]
    rw [exampleAvailEq, exampleTotal]
    norm_num [defaultWeights, Option.some.injEq]
  refine ⟨hWcf, hWgh, hB, hC, ?_, hbonus, hcomp, hpen, hF, hL, hlo, hhi⟩
  rw [hB, hC]
  norm_num

end AdaptiveRanker

namespace PdfParser

theorem firstMatch_none_iff (r : RE) : ∀ s : List Char,
    (firstMatch r s = none ↔ reTest r s = false)
  | [] => by
    cases h : matchLen r [] <;> simp [firstMatch, reTest, h]
  | c :: t => by
    cases h : matchLen r (c :: t) with
    | some n => simp [firstMatch, reTest, h]
    | none => simp [firstMatch, reTest, h, firstMatch_none_iff r t]

theorem kTest_of_matchesAt (p : List KAtom) (s : List Char)
    (h : kMatchesAt p s = true) : kTest p s = true := by
  cases s with
  | nil => simpa [kTest] using h
  | cons c t => simp [kTest, h]

theorem kTest_cons (p : List KAtom) (c : Char) (t : List Char)
    (h : kTest p t = true) : kTest p (c :: t) = true := by
  simp [kTest, h]

theorem kMatchesAt_ci_of_isPrefixList : ∀ (kw s : List Char),
    isPrefixList kw s = true → kMatchesAt (kw.map KAtom.ci) s = true
  | [], _, _ => rfl
  | a :: p, [], h => by simp [isPrefixList] at h
  | a :: p, c :: s, h => by
    rw [isPrefixList, Bool.and_eq_true] at h
    obtain ⟨h1, h2⟩ := h
    have ha : a = c := by simpa using h1
    subst ha
    simp [kMatchesAt, katomMatch,
      kMatchesAt_ci_of_isPrefixList p s h2]

theorem kTest_ci_of_containsSub (kw : List Char) : ∀ (s : List Char),
    containsSub kw s = true → kTest (kw.map KAtom.ci) s = true
  | [], h => by
    rw [containsSub] at h
    exact kTest_of_matchesAt _ _ (kMatchesAt_ci_of_isPrefixList kw [] h)
  | c :: t, h => by
    rw [containsSub, Bool.or_eq_true] at h
    rcases h with h | h
    · exact kTest_of_matchesAt _ _ (kMatchesAt_ci_of_isPrefixList kw (c :: t) h)
    · exact kTest_cons _ c t (kTest_ci_of_containsSub kw t h)

theorem mem_setDedup : ∀ (seen l : List String) (x : String),
    (x ∈ setDedup seen l ↔ x ∈ l ∧ x ∉ seen)
  | _, [], x => by simp [setDedup]
  | seen, y :: xs, x => by
    by_cases hy : y ∈ seen
    · rw [setDedup, if_pos hy, mem_setDedup seen xs x]
      constructor
      · rintro ⟨h1, h2⟩
        exact ⟨List.mem_cons_of_mem y h1, h2⟩
      · rintro ⟨h1, h2⟩
        rcases List.mem_cons.mp h1 with rfl | h1
        · exact absurd hy h2
        · exact ⟨h1, h2⟩
    · rw [setDedup, if_neg hy]
      constructor
      · intro h
        rcases List.mem_cons.mp h with rfl | h
        · exact ⟨List.mem_cons_self x xs, hy⟩
        · have hih := (mem_setDedup (y :: seen) xs x).mp h
          exact ⟨List.mem_cons_of_mem y hih.1,
            fun hc => hih.2 (List.mem_cons_of_mem y hc)⟩
      · rintro ⟨h1, h2⟩
        rcases List.mem_cons.mp h1 with rfl | h1
        · exact List.mem_cons_self x _
        · by_cases hxy : x = y
          · subst hxy
            exact List.mem_cons_self x _
          · refine List.mem_cons_of_mem y
              ((mem_setDedup (y :: seen) xs x).mpr ⟨h1, ?_⟩)
            intro hc
            rcases List.mem_cons.mp hc with h | h
            · exact hxy h
            · exact h2 h

theorem setDedup_eq_self : ∀ (seen l : List String), l.Nodup →
    (∀ x ∈ l, x ∉ seen) → setDedup seen l = l
  | _, [], _, _ => rfl
  | seen, x :: xs, hnd, hdisj => by
    rw [setDedup, if_neg (hdisj x (List.mem_cons_self x xs))]
    congr 1
    refine setDedup_eq_self (x :: seen) xs (List.Nodup.of_cons hnd) ?_
    intro y hy hc
    rcases List.mem_cons.mp hc with rfl | hc
    · exact (List.nodup_cons.mp hnd).1 hy
    · exact hdisj y (List.mem_cons_of_mem x hy) hc

theorem browserNodup : skillKeywordsBrowser.Nodup := by decide

theorem extractSkills_eq (s : List Char) :
    extractSkills s = skillsFound skillKeywordsBrowser s := by
  rw [extractSkills]
  exact setDedup_eq_self [] _ (List.Nodup.filter _ browserNodup) (by simp)

end PdfParser

/-- C7: for every present platform record — any of the six platforms —
a malformed or missing individual attribute field is replaced by its
no-evidence value (0, the empty collection/null, or the Unknown tier)
without changing the platform score, and the platform is still scored
(the scorer is a total function into [0, 100], so a field-level
defect never fails the whole platform); correspondingly, extractEmail
and extractPhone return null (not an error) exactly when no substring
of the text matches their pattern, and extractSkills returns the
empty list exactly when no skill keyword matches. -/
theorem C7_no_evidence_defaults :
    (∀ (job : AdaptiveRanker.JobReq) (rec : AdaptiveRanker.PlatformRecord),
       AdaptiveRanker.scorePlatform job (AdaptiveRanker.normalizeRecord rec)
         = AdaptiveRanker.scorePlatform job rec) ∧
    (∀ (job : AdaptiveRanker.JobReq) (rec : AdaptiveRanker.PlatformRecord),
       0 ≤ AdaptiveRanker.scorePlatform job rec ∧
       AdaptiveRanker.scorePlatform job rec ≤ 100) ∧
    (∀ s : List Char,
       (PdfParser.extractEmail s = none ↔
        PdfParser.reTest PdfParser.emailRE s = false)) ∧
    (∀ s : List Char,
       (PdfParser.extractPhone s = none ↔
        PdfParser.reTest PdfParser.phoneRE s = false)) ∧
    (∀ s : List Char,
       (PdfParser.extractSkills s = [] ↔
        ∀ kw ∈ PdfParser.skillKeywordsBrowser,
          PdfParser.skillMatches s kw = false)) := by
  refine ⟨?_, ?_, ?_, ?_, ?_⟩
  · intro job rec
    cases rec with
    | github g =>
      simp [AdaptiveRanker.scorePlatform, AdaptiveRanker.normalizeRecord,
        AdaptiveRanker.scoreGithubRaw, AdaptiveRanker.normalizeGithub]
    | leetcode l =>
      simp [AdaptiveRanker.scorePlatform, AdaptiveRanker.normalizeRecord,
        AdaptiveRanker.scoreLeetCodeRaw, AdaptiveRanker.normalizeLeetCode]
    | codeforces c =>
      simp [AdaptiveRanker.scorePlatform, AdaptiveRanker.normalizeRecord,
        AdaptiveRanker.scoreCodeforcesRaw, AdaptiveRanker.normalizeCodeforces]
    | linkedin li =>
      simp [AdaptiveRanker.scorePlatform, AdaptiveRanker.normalizeRecord,
        AdaptiveRanker.scoreLinkedinRaw, AdaptiveRanker.normalizeLinkedin]
    | resume r =>
      simp [AdaptiveRanker.scorePlatform, AdaptiveRanker.normalizeRecord,
        AdaptiveRanker.scoreResumeRaw, AdaptiveRanker.normalizeResume]
    | assessment a =>
      simp [AdaptiveRanker.scorePlatform, AdaptiveRanker.normalizeRecord,
        AdaptiveRanker.scoreAssessmentRaw, AdaptiveRanker.normalizeAssessment]
  · intro job rec
    cases rec <;>
      exact ⟨AdaptiveRanker.clampScore_nonneg _, AdaptiveRanker.clampScore_le_100 _⟩
  · intro s
    exact PdfParser.firstMatch_none_iff PdfParser.emailRE s
  · intro s
    exact PdfParser.firstMatch_none_iff PdfParser.phoneRE s
  · intro s
    rw [PdfParser.extractSkills_eq s, PdfParser.skillsFound,
      List.filter_eq_nil_iff]
    constructor
    · intro h kw hkw
      simpa using h kw hkw
    · intro h kw hkw
      simp [h kw hkw]

/-- C8: the browser-side extractSkills is total, returns a list with
no duplicates whose every element is one of the 25 fixed skill
keywords, and hence has length at most 25. -/
theorem C8_extract_skills_shape (s : List Char) :
    (PdfParser.extractSkills s).Nodup ∧
    (∀ kw ∈ PdfParser.extractSkills s, kw ∈ PdfParser.skillKeywordsBrowser) ∧
    (PdfParser.extractSkills s).length ≤ 25 := by
  rw [PdfParser.extractSkills_eq s]
  simp only [PdfParser.skillsFound]
  refine ⟨List.Nodup.filter _ PdfParser.browserNodup, ?_, ?_⟩
  · intro kw hkw
    exact (List.mem_filter.mp hkw).1
  · calc (PdfParser.skillKeywordsBrowser.filter (PdfParser.skillMatches s)).length
        ≤ PdfParser.skillKeywordsBrowser.length := List.length_filter_le _ _
      _ = 25 := rfl

/-- C8 witness: instantiated on a concrete text. -/
theorem C8_extract_skills_shape_witness :
    (PdfParser.extractSkills ("knows Python".toList)).Nodup ∧
    "Python" ∈ PdfParser.skillKeywordsBrowser ∧
    (PdfParser.extractSkills ("knows Python".toList)).length ≤ 25 :=
  ⟨(C8_extract_skills_shape ("knows Python".toList)).1,
   (C8_extract_skills_shape ("knows Python".toList)).2.1 "Python" (by decide),
   (C8_extract_skills_shape ("knows Python".toList)).2.2⟩

/-- C9: every field of the record built by extractResumeData other
than extractedAt is a pure function of the extracted text and the
file name (two runs on the same text agree on all of them), while
extractedAt is the wall-clock time of the call, so two runs on the
same file agree in full only when their timestamps coincide. -/
theorem C9_determinism_modulo_timestamp (f : String) (t : List Char)
    (n1 n2 : String) :
    (PdfParser.extractResumeData f t n1).filename
      = (PdfParser.extractResumeData f t n2).filename ∧
    (PdfParser.extractResumeData f t n1).extractedText
      = (PdfParser.extractResumeData f t n2).extractedText ∧
    (PdfParser.extractResumeData f t n1).email
      = (PdfParser.extractResumeData f t n2).email ∧
    (PdfParser.extractResumeData f t n1).phone
      = (PdfParser.extractResumeData f t n2).phone ∧
    (PdfParser.extractResumeData f t n1).skills
      = (PdfParser.extractResumeData f t n2).skills ∧
    (PdfParser.extractResumeData f t n1).education
      = (PdfParser.extractResumeData f t n2).education ∧
    (PdfParser.extractResumeData f t n1).experience
      = (PdfParser.extractResumeData f t n2).experience ∧
    (PdfParser.extractResumeData f t n1).extractedAt = n1 ∧
    (PdfParser.extractResumeData f t n1 = PdfParser.extractResumeData f t n2
      ↔ n1 = n2) := by
  refine ⟨rfl, rfl, rfl, rfl, rfl, rfl, rfl, rfl, ?_⟩
  simp [PdfParser.extractResumeData, PdfParser.ResumeData.mk.injEq]

theorem extraCi : ∀ kw ∈ ExtractResume.extraSkills,
    PdfParser.kcompile kw.toList = kw.toList.map PdfParser.KAtom.ci := by
  decide

theorem extraInBrowser : ∀ kw ∈ ExtractResume.extraSkills,
    kw ∈ PdfParser.skillKeywordsBrowser := by
  decide

theorem extraNotCLI : ∀ kw ∈ ExtractResume.extraSkills,
    kw ∉ ExtractResume.skillKeywordsCLI := by
  decide

theorem browserSplit : PdfParser.skillKeywordsBrowser
    = ExtractResume.skillKeywordsCLI ++ ExtractResume.extraSkills := by
  decide

theorem cliNodup : ExtractResume.skillKeywordsCLI.Nodup := by decide

/-- C10: the browser skill extractor and the CLI skill extractor are
not extensionally equal — any text containing one of the six extra
keywords makes the browser version include that skill, while the CLI
version can never return it; and on texts matching none of the six
extra patterns the two functions return the same list. -/
theorem C10_skill_extractor_divergence :
    (∀ s : List Char, ∀ kw ∈ ExtractResume.extraSkills,
       PdfParser.containsSub kw.toList s = true →
       kw ∈ PdfParser.extractSkills s) ∧
    (∀ s : List Char, ∀ kw ∈ ExtractResume.extraSkills,
       kw ∉ ExtractResume.extractSkillsCLI s) ∧
    (∀ s : List Char,
       (∀ kw ∈ ExtractResume.extraSkills, PdfParser.skillMatches s kw = false) →
       PdfParser.extractSkills s = ExtractResume.extractSkillsCLI s) ∧
    PdfParser.extractSkills ("uses Redis".toList)
      ≠ ExtractResume.extractSkillsCLI ("uses Redis".toList) := by
  refine ⟨?_, ?_, ?_, by decide⟩
  · intro s kw hkw hsub
    have ht : PdfParser.kTest (kw.toList.map PdfParser.KAtom.ci) s = true :=
      PdfParser.kTest_ci_of_containsSub kw.toList s hsub
    rw [← extraCi kw hkw] at ht
    have hmem : kw ∈ PdfParser.skillsFound PdfParser.skillKeywordsBrowser s := by
      rw [PdfParser.skillsFound, List.mem_filter]
      exact ⟨extraInBrowser kw hkw, ht⟩
    rw [PdfParser.extractSkills]
    exact (PdfParser.mem_setDedup [] _ kw).mpr ⟨hmem, by simp⟩
  · intro s kw hkw hmem
    rw [ExtractResume.extractSkillsCLI, PdfParser.skillsFound,
      List.mem_filter] at hmem
    exact extraNotCLI kw hkw hmem.1
  · intro s hnone
    rw [PdfParser.extractSkills_eq s, PdfParser.skillsFound, browserSplit,
      List.filter_append]
    have h6 : ExtractResume.extraSkills.filter (PdfParser.skillMatches s) = [] := by
      rw [List.filter_eq_nil_iff]
      intro kw hkw
      simp [hnone kw hkw]
    rw [h6, List.append_nil]
    rfl

/-- C10 witness: on the text "uses Redis" the browser extractor finds
the skill Redis while the CLI extractor does not, and on a text with
none of the six extra keywords the two extractors agree. -/
theorem C10_skill_extractor_divergence_witness :
    "Redis" ∈ PdfParser.extractSkills ("uses Redis".toList) ∧
    "Redis" ∉ ExtractResume.extractSkillsCLI ("uses Redis".toList) ∧
    PdfParser.extractSkills ("plain Python".toList)
      = ExtractResume.extractSkillsCLI ("plain Python".toList) :=
  ⟨C10_skill_extractor_divergence.1 ("uses Redis".toList) "Redis" (by decide)
     (by decide),
   C10_skill_extractor_divergence.2.1 ("uses Redis".toList) "Redis" (by decide),
   C10_skill_extractor_divergence.2.2.1 ("plain Python".toList) (by decide)⟩

/-- C7 witness: the all-missing résumé record (whose education
defaults to the Unknown tier) is normalized without changing its
score and is still scored within [0, 100], and concrete texts with no
email, no phone and no skill keyword yield null, null and the empty
list. -/
theorem C7_no_evidence_defaults_witness :
    AdaptiveRanker.scorePlatform AdaptiveRanker.job0
        (AdaptiveRanker.normalizeRecord
          (AdaptiveRanker.PlatformRecord.resume AdaptiveRanker.emptyResume))
      = AdaptiveRanker.scorePlatform AdaptiveRanker.job0
          (AdaptiveRanker.PlatformRecord.resume AdaptiveRanker.emptyResume) ∧
    (0 ≤ AdaptiveRanker.scorePlatform AdaptiveRanker.job0
          (AdaptiveRanker.PlatformRecord.resume AdaptiveRanker.emptyResume) ∧
     AdaptiveRanker.scorePlatform AdaptiveRanker.job0
          (AdaptiveRanker.PlatformRecord.resume AdaptiveRanker.emptyResume) ≤ 100) ∧
    PdfParser.extractEmail ("no such address".toList) = none ∧
    PdfParser.extractPhone ("no numbers here".toList) = none ∧
    PdfParser.extractSkills ("nothing relevant".toList) = [] :=
  ⟨C7_no_evidence_defaults.1 AdaptiveRanker.job0
     (AdaptiveRanker.PlatformRecord.resume AdaptiveRanker.emptyResume),
   C7_no_evidence_defaults.2.1 AdaptiveRanker.job0
     (AdaptiveRanker.PlatformRecord.resume AdaptiveRanker.emptyResume),
   (C7_no_evidence_defaults.2.2.1 ("no such address".toList)).mpr (by decide),
   (C7_no_evidence_defaults.2.2.2.1 ("no numbers here".toList)).mpr (by decide),
   (C7_no_evidence_defaults.2.2.2.2 ("nothing relevant".toList)).mpr (by decide)⟩

/-- C9 witness: instantiated at a concrete file name, text and two
timestamps. -/
theorem C9_determinism_modulo_timestamp_witness :
    (PdfParser.extractResumeData "cv.pdf" ("some text".toList) "t1").filename
      = (PdfParser.extractResumeData "cv.pdf" ("some text".toList) "t2").filename ∧
    (PdfParser.extractResumeData "cv.pdf" ("some text".toList) "t1").extractedText
      = (PdfParser.extractResumeData "cv.pdf" ("some text".toList) "t2").extractedText ∧
    (PdfParser.extractResumeData "cv.pdf" ("some text".toList) "t1").email
      = (PdfParser.extractResumeData "cv.pdf" ("some text".toList) "t2").email ∧
    (PdfParser.extractResumeData "cv.pdf" ("some text".toList) "t1").phone
      = (PdfParser.extractResumeData "cv.pdf" ("some text".toList) "t2").phone ∧
    (PdfParser.extractResumeData "cv.pdf" ("some text".toList) "t1").skills
      = (PdfParser.extractResumeData "cv.pdf" ("some text".toList) "t2").skills ∧
    (PdfParser.extractResumeData "cv.pdf" ("some text".toList) "t1").education
      = (PdfParser.extractResumeData "cv.pdf" ("some text".toList) "t2").education ∧
    (PdfParser.extractResumeData "cv.pdf" ("some text".toList) "t1").experience
      = (PdfParser.extractResumeData "cv.pdf" ("some text".toList) "t2").experience ∧
    (PdfParser.extractResumeData "cv.pdf" ("some text".toList) "t1").extractedAt = "t1" ∧
    (PdfParser.extractResumeData "cv.pdf" ("some text".toList) "t1"
      = PdfParser.extractResumeData "cv.pdf" ("some text".toList) "t2"
      ↔ ("t1" : String) = "t2") :=
  C9_determinism_modulo_timestamp "cv.pdf" ("some text".toList) "t1" "t2"
